import Mathlib

/-!
Verification development for the BlueZ serial port manager
(`serial/manager.c`).  The C code is shallowly embedded: strings are
`List Char`, machine `long` is `Int` with explicit range checks, and the
effectful collaborators (D-Bus, the SDP library, `open(2)`, `ioctl(2)`)
are represented by explicit oracle inputs recording whether each external
call succeeded and what it returned.  D-Bus bookkeeping fields of the C
structs (connection/message references, GLib watch ids on pending
connects) that no claim observes are omitted from the embedded records.
-/

namespace Serial

/-- ASCII `tolower`, as used by `strcasecmp`/`strncasecmp` in the C locale. -/
def tolowerC (c : Char) : Char :=
  if 'A' ≤ c ∧ c ≤ 'Z' then Char.ofNat (c.toNat + 32) else c

/-- `strcasecmp(a, b) == 0`: the two NUL-terminated strings are equal up to
ASCII case.  Lists of different length are never equal. -/
def strcaseEq : List Char → List Char → Bool
  | [], [] => true
  | a :: as, b :: bs => (tolowerC a == tolowerC b) && strcaseEq as bs
  | _, _ => false



/-- `isspace` in the C locale. -/
def isspaceC (c : Char) : Bool :=
  c == ' ' || c == '\t' || c == '\n' || c == '\x0b' || c == '\x0c' || c == '\r'

/-- Value of a digit character in the given base (as accepted by `strtol`). -/
def digitValBase (base : Nat) (c : Char) : Option Nat :=
  let v : Option Nat :=
    if '0' ≤ c ∧ c ≤ '9' then some (c.toNat - '0'.toNat)
    else if 'a' ≤ c ∧ c ≤ 'z' then some (c.toNat - 'a'.toNat + 10)
    else if 'A' ≤ c ∧ c ≤ 'Z' then some (c.toNat - 'A'.toNat + 10)
    else none
  match v with
  | some d => if d < base then some d else none
  | none => none

/-- Accumulate leading digits of `s` in `base`; returns (value, digit count). -/
def parseDigits (base : Nat) : List Char → Nat → Nat → Nat × Nat
  | [], acc, n => (acc, n)
  | c :: rest, acc, n =>
    match digitValBase base c with
    | some d => parseDigits base rest (acc * base + d) (n + 1)
    | none => (acc, n)

/-- `strtol(s, &endptr, 0)`: skip whitespace, optional sign, then a `0x`/`0X`
hex literal, a leading-`0` octal literal, or a decimal literal.  Returns the
(unclamped) value and the number of digit characters consumed; zero consumed
digits corresponds to `endptr == s`.  A bare `"0x"` with no hex digit after it
consumes only the `'0'` and yields 0, as glibc does. -/
def strtol0 (s : List Char) : Int × Nat :=
  let s1 := s.dropWhile isspaceC
  let signAndRest : Bool × List Char :=
    match s1 with
    | '+' :: r => (false, r)
    | '-' :: r => (true, r)
    | r => (false, r)
  let neg := signAndRest.1
  let s2 := signAndRest.2
  let magAndCount : Nat × Nat :=
    match s2 with
    | '0' :: c :: r =>
      if c == 'x' || c == 'X' then
        let p := parseDigits 16 r 0 0
        if p.2 = 0 then (0, 1) else p
      else
        -- octal: the leading '0' itself counts as a consumed digit
        let p := parseDigits 8 (c :: r) 0 0
        (p.1, p.2 + 1)
    | '0' :: [] => (0, 1)
    | r => parseDigits 10 r 0 0
  let mag : Int := Int.ofNat magAndCount.1
  (if neg then -mag else mag, magAndCount.2)

def LONG_MAX : Int := 9223372036854775807
def LONG_MIN : Int := -9223372036854775808

/-- `pattern2long`: accept the pattern iff `strtol` converted something and the
value fits in `long` (out-of-range conversions set `ERANGE` in C and are
rejected; `pattern == endptr` means no digits were converted). -/
def pattern2long (s : List Char) : Option Int :=
  let r := strtol0 s
  if r.2 = 0 then none
  else if r.1 > LONG_MAX ∨ r.1 < LONG_MIN then none
  else some r.1

/-- `strncasecmp("0x", pattern, 2) == 0`. -/
def startsWith0x : List Char → Bool
  | a :: b :: _ => a == '0' && (b == 'x' || b == 'X')
  | _ => false


/-- The well-known service name table (`serial_services`), with the SDP
service-class identifiers from `<bluetooth/sdp.h>`. -/
def str2class (p : List Char) : Nat :=
  if strcaseEq ['v', 'c', 'p'] p then 0x110f
  else if strcaseEq ['p', 'b', 'a', 'p'] p then 0x1130
  else if strcaseEq ['s', 'a', 'p'] p then 0x112d
  else if strcaseEq ['f', 't', 'p'] p then 0x1106
  else if strcaseEq ['b', 'p', 'p'] p then 0x1122
  else if strcaseEq ['b', 'i', 'p'] p then 0x111a
  else if strcaseEq ['s', 'y', 'n', 'c', 'h'] p then 0x1104
  else if strcaseEq ['d', 'u', 'n'] p then 0x1103
  else if strcaseEq ['o', 'p', 'p'] p then 0x1105
  else if strcaseEq ['f', 'a', 'x'] p then 0x1111
  else if strcaseEq ['s', 'p', 'p'] p then 0x1101
  else 0

def BASE_UUID : List Char := "00000000-0000-1000-8000-00805F9B34FB".toList

/-- The 36-character base-UUID shape test of `pattern2uuid128`:
`strlen == 36`, first 3 chars caseless-match the base UUID, and chars 8..35
caseless-match the base UUID's tail. -/
def uuidShape (p : List Char) : Bool :=
  p.length == 36 && strcaseEq (p.take 3) (BASE_UUID.take 3)
    && strcaseEq ((p.drop 8).take 28) ((BASE_UUID.drop 8).take 28)

/-- Result of `pattern2uuid128`: a UUID derived from a friendly-name service
class or copied verbatim from a base-UUID-shaped pattern. -/
inductive Uuid where
  | ofClass (cls : Nat)
  | ofPattern (p : List Char)
deriving DecidableEq

def pattern2uuid128 (p : List Char) : Option Uuid :=
  if str2class p ≠ 0 then some (.ofClass (str2class p))
  else if uuidShape p then some (.ofPattern p)
  else none




/-! ## Pending connections and the Submit entry points -/

/-- `struct pending_connect`, restricted to the fields the state machine
branches on.  `channel` is 0 until resolved, `id` is -1 until an RFCOMM
device has been bound. -/
structure PendingConnect where
  bda : List Char
  pattern : List Char
  channel : Int
  id : Int
  ntries : Nat
  canceled : Bool
deriving DecidableEq

/-- D-Bus outcomes the manager produces.  `handled` represents
`DBUS_HANDLER_RESULT_HANDLED` with the actual reply still pending on an
asynchronous callback. -/
inductive Reply where
  | handled
  | success
  | portCreated
  | inProgress
  | failedAdapter
  | notAllowed
  | invalidArguments (msg : List Char)
  | notSupported
  | connectionAttemptFailed (e : Int)
  | failedErrno (e : Int)
  | canceled
deriving DecidableEq

/-- Counts of the outward requests a Submit issues: discovery handle
lookups (`GetRemoteServiceHandles`), record fetches
(`GetRemoteServiceRecord`), RFCOMM socket connects, and direct device
binds (`RFCOMMCREATEDEV` from the `CreatePort` literal-channel path). -/
structure Actions where
  handleLookups : Nat
  recordFetches : Nat
  rfcommConnects : Nat
  binds : Nat
deriving DecidableEq

def noActions : Actions := ⟨0, 0, 0, 0⟩

/-- Outcomes of the external calls a Submit can make. -/
structure Env where
  adapterOk : Bool
  sendHandlesOk : Bool
  sendRecordOk : Bool
  rfcommConnectOk : Bool
  connectErrno : Int
  bindResult : Int
deriving DecidableEq

/-- `find_pending_connect_by_pattern`: first pending connect whose address
and pattern both `strcasecmp`-match. -/
def find_pending_connect_by_pattern (reg : List PendingConnect)
    (bda pattern : List Char) : Option PendingConnect :=
  reg.find? (fun pc => strcaseEq pc.bda bda && strcaseEq pc.pattern pattern)

/-- A freshly allocated pending connect (`g_new0` + the explicit field
assignments: `id = -1`, channel still 0). -/
def mkPending (bda pattern : List Char) : PendingConnect :=
  ⟨bda, pattern, 0, -1, 0, false⟩

/-- A pending connect about to enter `rfcomm_connect` on a literal channel. -/
def mkPendingCh (bda pattern : List Char) (ch : Int) : PendingConnect :=
  ⟨bda, pattern, ch, -1, 0, false⟩

/-- `connect_service_from_devid`: the `ConnectService` Submit path.
Returns the immediate D-Bus result, the updated pending-connect registry
and the outward requests issued. -/
def connect_service_from_devid (env : Env) (reg : List PendingConnect)
    (bda pattern : List Char) : Reply × List PendingConnect × Actions :=
  match find_pending_connect_by_pattern reg bda pattern with
  | some _ => (.inProgress, reg, noActions)
  | none =>
    if ¬ env.adapterOk then (.failedAdapter, reg, noActions)
    else
      match pattern2uuid128 pattern with
      | some _ =>
        if env.sendHandlesOk then
          (.handled, reg ++ [mkPending bda pattern], ⟨1, 0, 0, 0⟩)
        else (.notSupported, reg, noActions)
      | none =>
        match pattern2long pattern with
        | none => (.invalidArguments "invalid pattern".toList, reg, noActions)
        | some val =>
          if startsWith0x pattern then
            if val < 0x10000 then
              (.invalidArguments "invalid record handle".toList, reg, noActions)
            else if env.sendRecordOk then
              (.handled, reg ++ [mkPending bda pattern], ⟨0, 1, 0, 0⟩)
            else (.notSupported, reg, noActions)
          else if val < 1 ∨ val > 30 then
            (.invalidArguments "invalid RFCOMM channel".toList, reg, noActions)
          else if env.rfcommConnectOk then
            (.handled, reg ++ [mkPendingCh bda pattern val], ⟨0, 0, 1, 0⟩)
          else
            -- rfcomm_connect failed: the freshly appended entry is removed
            (.connectionAttemptFailed env.connectErrno, reg, ⟨0, 0, 1, 0⟩)

/-- `create_port`: the `CreatePort` Submit path.  Identical resolution
pipeline; a literal channel leads to a direct persistent bind instead of a
connect. -/
def create_port (env : Env) (reg : List PendingConnect)
    (bda pattern : List Char) : Reply × List PendingConnect × Actions :=
  match find_pending_connect_by_pattern reg bda pattern with
  | some _ => (.inProgress, reg, noActions)
  | none =>
    if ¬ env.adapterOk then (.failedAdapter, reg, noActions)
    else
      match pattern2uuid128 pattern with
      | some _ =>
        if env.sendHandlesOk then
          (.handled, reg ++ [mkPending bda pattern], ⟨1, 0, 0, 0⟩)
        else (.notSupported, reg, noActions)
      | none =>
        match pattern2long pattern with
        | none => (.invalidArguments "invalid pattern".toList, reg, noActions)
        | some val =>
          if startsWith0x pattern then
            if val < 0x10000 then
              (.invalidArguments "invalid record handle".toList, reg, noActions)
            else if env.sendRecordOk then
              (.handled, reg ++ [mkPending bda pattern], ⟨0, 1, 0, 0⟩)
            else (.notSupported, reg, noActions)
          else if val < 1 ∨ val > 30 then
            (.invalidArguments "invalid RFCOMM channel".toList, reg, noActions)
          else if env.bindResult < 0 then
            (.failedErrno (-env.bindResult), reg, noActions)
          else (.portCreated, reg, ⟨0, 0, 0, 1⟩)

/-! ## The asynchronous callback chain -/

def MAX_OPEN_TRIES : Nat := 5
def OPEN_WAIT : Nat := 300

/-- Effect of `open_notify(fd, err, pc)`: the reply sent, whether
`rfcomm_release` was invoked on the bound device, and whether the open
descriptor was handed to `port_add_listener`. -/
structure OpenNotifyEffect where
  reply : Reply
  released : Bool
  listenerAdded : Bool
deriving DecidableEq

def open_notify (err : Int) (canceled : Bool) : OpenNotifyEffect :=
  if err ≠ 0 then ⟨.connectionAttemptFailed err, true, false⟩
  else if canceled then ⟨.canceled, true, false⟩
  else ⟨.success, false, true⟩

/-- Common result shape of the asynchronous callbacks: the reply emitted
(if any), the registry afterwards, whether an RFCOMM device was bound,
whether an RFCOMM connect was initiated, and whether a record fetch was
issued. -/
structure CallbackOut where
  reply : Option Reply
  reg : List PendingConnect
  bound : Bool
  connectStarted : Bool
  recordFetchIssued : Bool
deriving DecidableEq

def pcWithNtries (pc : PendingConnect) (n : Nat) : PendingConnect :=
  ⟨pc.bda, pc.pattern, pc.channel, pc.id, n, pc.canceled⟩

/-- One timer tick of `open_continue`: bail out silently if the pending
connect is gone from the registry, otherwise try the open; on failure
either give up (when this was the `MAX_OPEN_TRIES`-th loop attempt) or
bump the retry counter and reschedule.  The second component is the
`gboolean` the GLib timer callback returns (`true` = run again). -/
def open_continue_tick (reg : List PendingConnect) (pc : PendingConnect)
    (openOk : Bool) (errno : Int) : CallbackOut × Bool :=
  if ¬ reg.contains pc then (⟨none, reg, false, false, false⟩, false)
  else if openOk then
    (⟨some (open_notify 0 pc.canceled).reply, reg.erase pc, false, false, false⟩,
      false)
  else if pc.ntries + 1 ≥ MAX_OPEN_TRIES then
    (⟨some (open_notify errno pc.canceled).reply, reg.erase pc, false, false,
      false⟩, false)
  else
    (⟨none, reg.map (fun q => if q = pc then pcWithNtries q (q.ntries + 1) else q),
      false, false, false⟩, true)

/-- The retry loop of `open_continue` in isolation, for a request that stays
registered throughout: `remaining` is `MAX_OPEN_TRIES - ntries` and `k`
indexes the open attempts (`oracle k` = the `k`-th `open()` on the device
node succeeds).  Returns how many opens the loop performed, the reply of
the final `open_notify`, and whether the device was released. -/
def open_continue_loop (errno : Int) (canceled : Bool) (oracle : Nat → Bool) :
    Nat → Nat → Nat × Reply × Bool
  | 0, _ => (0, .connectionAttemptFailed errno, true)
  | remaining + 1, k =>
    if oracle k then
      let eff := open_notify 0 canceled
      (1, eff.reply, eff.released)
    else if remaining = 0 then
      let eff := open_notify errno canceled
      (1, eff.reply, eff.released)
    else
      let r := open_continue_loop errno canceled oracle remaining (k + 1)
      (r.1 + 1, r.2)

/-- The whole device-open phase as entered from `rfcomm_connect_cb`:
`port_open` makes one immediate attempt; if it fails, a 300 ms timer drives
`open_continue` for at most `MAX_OPEN_TRIES` further attempts. -/
def port_open_process (errno : Int) (canceled : Bool) (oracle : Nat → Bool) :
    Nat × Reply × Bool :=
  if oracle 0 then
    let eff := open_notify 0 canceled
    (1, eff.reply, eff.released)
  else
    let r := open_continue_loop errno canceled oracle MAX_OPEN_TRIES 1
    (r.1 + 1, r.2)

/-- External outcomes feeding `rfcomm_connect_cb`. -/
structure ConnectCbIn where
  nval : Bool
  getsockoptOk : Bool
  getsockoptErrno : Int
  soErr : Int
  createDevId : Int
  openNow : Bool
deriving DecidableEq

/-- `rfcomm_connect_cb`: completion of the non-blocking RFCOMM connect.
Note that this callback performs no registry-membership check. -/
def rfcomm_connect_cb (reg : List PendingConnect) (pc : PendingConnect)
    (inp : ConnectCbIn) : CallbackOut :=
  if pc.canceled then ⟨some .canceled, reg.erase pc, false, false, false⟩
  else if inp.nval then ⟨some .canceled, reg.erase pc, false, false, false⟩
  else if ¬ inp.getsockoptOk then
    ⟨some (.connectionAttemptFailed inp.getsockoptErrno), reg.erase pc, false,
      false, false⟩
  else if inp.soErr ≠ 0 then
    ⟨some (.connectionAttemptFailed inp.soErr), reg.erase pc, false, false,
      false⟩
  else if inp.createDevId < 0 then
    ⟨some (.connectionAttemptFailed inp.createDevId), reg.erase pc, false,
      false, false⟩
  else if inp.openNow then
    ⟨some (open_notify 0 pc.canceled).reply, reg.erase pc, true, false, false⟩
  else
    -- open in progress: wait for the open_continue timer, keep the entry
    ⟨none, reg, true, false, false⟩

/-- External outcomes feeding `handles_reply`. -/
structure HandlesReplyIn where
  dbusError : Bool
  dbusErrorIsConnFailed : Bool
  argsOk : Bool
  len : Nat
  getRecordOk : Bool
deriving DecidableEq

def EIO : Int := 5

/-- `handles_reply`: reply to `GetRemoteServiceHandles`. -/
def handles_reply (reg : List PendingConnect) (pc : PendingConnect)
    (inp : HandlesReplyIn) : CallbackOut :=
  if ¬ reg.contains pc then ⟨none, reg, false, false, false⟩
  else if pc.canceled then ⟨some .canceled, reg.erase pc, false, false, false⟩
  else if inp.dbusError then
    ⟨some (if inp.dbusErrorIsConnFailed then .connectionAttemptFailed EIO
           else .notSupported), reg.erase pc, false, false, false⟩
  else if ¬ inp.argsOk then ⟨some .notSupported, reg.erase pc, false, false, false⟩
  else if inp.len = 0 then ⟨some .notSupported, reg.erase pc, false, false, false⟩
  else if inp.getRecordOk then ⟨none, reg, false, false, true⟩
  else ⟨some .notSupported, reg.erase pc, false, false, false⟩

/-- External outcomes feeding `record_reply`: the service-record payload
length, the result of `sdp_extract_pdu` (`some scanned` on success),
whether `sdp_get_access_protos` succeeded, the channel
`sdp_get_proto_port` produced, and the outcomes of the final bind/connect. -/
structure RecordReplyIn where
  dbusError : Bool
  dbusErrorIsConnFailed : Bool
  argsOk : Bool
  len : Nat
  extract : Option Nat
  accessProtosOk : Bool
  protoPort : Int
  isCreatePort : Bool
  bindResult : Int
  connectOk : Bool
  connectErrno : Int
deriving DecidableEq

/-- `record_reply`: reply to `GetRemoteServiceRecord`, including channel
extraction and the hand-off to bind (`CreatePort`) or connect
(`ConnectService`). -/
def record_reply (reg : List PendingConnect) (pc : PendingConnect)
    (inp : RecordReplyIn) : CallbackOut :=
  if ¬ reg.contains pc then ⟨none, reg, false, false, false⟩
  else if pc.canceled then ⟨some .canceled, reg.erase pc, false, false, false⟩
  else if inp.dbusError then
    ⟨some (if inp.dbusErrorIsConnFailed then .connectionAttemptFailed EIO
           else .notSupported), reg.erase pc, false, false, false⟩
  else if ¬ inp.argsOk then ⟨some .notSupported, reg.erase pc, false, false, false⟩
  else if inp.len = 0 then ⟨some .notSupported, reg.erase pc, false, false, false⟩
  else
    match inp.extract with
    | none => ⟨some .notSupported, reg.erase pc, false, false, false⟩
    | some scanned =>
      if inp.len ≠ scanned ∨ ¬ inp.accessProtosOk then
        ⟨some .notSupported, reg.erase pc, false, false, false⟩
      else if inp.protoPort < 1 ∨ inp.protoPort > 30 then
        ⟨some .notSupported, reg.erase pc, false, false, false⟩
      else if inp.isCreatePort then
        if inp.bindResult < 0 then
          ⟨some (.failedErrno (-inp.bindResult)), reg.erase pc, false, false,
            false⟩
        else ⟨some .portCreated, reg.erase pc, true, false, false⟩
      else
        if inp.connectOk then ⟨none, reg, false, true, false⟩
        else
          ⟨some (.connectionAttemptFailed inp.connectErrno), reg.erase pc,
            false, false, false⟩

/-! ## The proxy forwarding engine -/

/-- Linux termios control-mode flag values (`asm-generic/termbits.h`). -/
def PARENB : Nat := 0x100
def PARODD : Nat := 0x200
def CSIZE : Nat := 0x30
def CS5 : Nat := 0x00
def CS6 : Nat := 0x10
def CS7 : Nat := 0x20
def CS8 : Nat := 0x30
def CSTOPB : Nat := 0x40
def CLOCAL : Nat := 0x800
def CREAD : Nat := 0x80

/-- Linux `Bxxx` speed constants. -/
def B0 : Nat := 0
def B50 : Nat := 1
def B300 : Nat := 7
def B600 : Nat := 8
def B1200 : Nat := 9
def B1800 : Nat := 10
def B2400 : Nat := 11
def B4800 : Nat := 12
def B9600 : Nat := 13
def B19200 : Nat := 14
def B38400 : Nat := 15
def B57600 : Nat := 0x1001
def B115200 : Nat := 0x1002

/-- `a & ~m` on machine words, expressed on `Nat` (the bits of `m` present
in `a` are removed). -/
def clearBits (a m : Nat) : Nat := a - (a &&& m)

/-- The `struct termios` data the proxy stores: control flags plus the
input/output speeds set through `cfsetispeed`/`cfsetospeed`. -/
structure Termios where
  c_cflag : Nat
  ispeed : Nat
  ospeed : Nat
deriving DecidableEq

/-- `struct proxy`, restricted to the fields the claims observe.  GLib
watch identifiers are `Nat`s, 0 meaning "no watch registered", matching
the C use of `guint` ids. -/
structure Proxy where
  uuid128 : List Char
  address : List Char
  dst : List Char
  channel : Nat
  record_id : Nat
  listen_watch : Nat
  rfcomm_watch : Nat
  local_watch : Nat
  proxy_ti : Termios
deriving DecidableEq

/-- `str2speed` over the fixed `supported_speed` table (exact `strcmp`
matching); yields `B0` when the rate string is unsupported. -/
def str2speed (s : List Char) : Nat :=
  if s == "50".toList then B50
  else if s == "300".toList then B300
  else if s == "600".toList then B600
  else if s == "1200".toList then B1200
  else if s == "1800".toList then B1800
  else if s == "2400".toList then B2400
  else if s == "4800".toList then B4800
  else if s == "9600".toList then B9600
  else if s == "19200".toList then B19200
  else if s == "38400".toList then B38400
  else if s == "57600".toList then B57600
  else if s == "115200".toList then B115200
  else B0

/-- `set_parity`: updates the control flags, or fails on an unknown parity
string. -/
def set_parity (s : List Char) (ctrl : Nat) : Option Nat :=
  if strcaseEq ['e', 'v', 'e', 'n'] s then
    some (clearBits (ctrl ||| PARENB) PARODD)
  else if strcaseEq ['o', 'd', 'd'] s then
    some ((ctrl ||| PARENB) ||| PARODD)
  else if strcaseEq ['m', 'a', 'r', 'k'] s then
    some (ctrl ||| PARENB)
  else if strcaseEq ['n', 'o', 'n', 'e'] s ∨ strcaseEq ['s', 'p', 'a', 'c', 'e'] s then
    some (clearBits ctrl PARENB)
  else none

/-- `set_databits`: data bits must lie in [5,8]. -/
def set_databits (databits : Nat) (ctrl : Nat) : Option Nat :=
  if databits < 5 ∨ databits > 8 then none
  else
    let c := clearBits ctrl CSIZE
    some (c ||| (if databits = 5 then CS5 else if databits = 6 then CS6
                 else if databits = 7 then CS7 else CS8))

/-- `set_stopbits`: only 1 or 2 stop bits are allowed. -/
def set_stopbits (stopbits : Nat) (ctrl : Nat) : Option Nat :=
  if stopbits = 1 then some (clearBits ctrl CSTOPB)
  else if stopbits = 2 then some (ctrl ||| CSTOPB)
  else none

def proxyWithTi (prx : Proxy) (ti : Termios) : Proxy :=
  ⟨prx.uuid128, prx.address, prx.dst, prx.channel, prx.record_id,
    prx.listen_watch, prx.rfcomm_watch, prx.local_watch, ti⟩

/-- `proxy_set_serial_params`: refuses while the TTY is open for
forwarding, validates rate, data bits, stop bits and parity in that
order against a scratch copy of the control flags, and only commits the
new settings (plus `CLOCAL|CREAD` and the new speeds) after everything
validated. -/
def proxy_set_serial_params (prx : Proxy) (ratestr : List Char)
    (databits stopbits : Nat) (paritystr : List Char) : Reply × Proxy :=
  if prx.local_watch ≠ 0 then (.notAllowed, prx)
  else if str2speed ratestr = B0 then
    (.invalidArguments "Invalid baud rate".toList, prx)
  else
    match set_databits databits prx.proxy_ti.c_cflag with
    | none => (.invalidArguments "Invalid data bits".toList, prx)
    | some c1 =>
      match set_stopbits stopbits c1 with
      | none => (.invalidArguments "Invalid stop bits".toList, prx)
      | some c2 =>
        match set_parity paritystr c2 with
        | none => (.invalidArguments "Invalid parity".toList, prx)
        | some c3 =>
          let speed := str2speed ratestr
          (.success,
            proxyWithTi prx ⟨(c3 ||| CLOCAL) ||| CREAD, speed, speed⟩)

/-- Values appearing in the `GetInfo` property dictionary. -/
inductive PropVal where
  | str (s : List Char)
  | byte (b : Nat)
  | boolean (b : Bool)
deriving DecidableEq

/-- `proxy_get_info`: the read-only property snapshot. -/
def proxy_get_info (prx : Proxy) : List (List Char × PropVal) :=
  [("uuid".toList, .str prx.uuid128), ("address".toList, .str prx.address)]
    ++ (if prx.channel ≠ 0 then [("channel".toList, .byte prx.channel)] else [])
    ++ [("enabled".toList, .boolean (prx.listen_watch ≠ 0)),
        ("connected".toList, .boolean (prx.rfcomm_watch ≠ 0))]
    ++ (if prx.rfcomm_watch ≠ 0 then [("address".toList, .str prx.dst)] else [])

/-- External events feeding one invocation of `connect_event`: the watch
condition, the `accept` result (peer address on success), the local
open/connect result, and the two fresh watch ids GLib would hand out. -/
structure ConnectEventIn where
  nval : Bool
  errHup : Bool
  acceptOk : Bool
  peer : List Char
  localFd : Int
  newRfcommWatch : Nat
  newLocalWatch : Nat
deriving DecidableEq

structure ConnectEventOut where
  prx : Proxy
  keepWatch : Bool
  remoteClosed : Bool
deriving DecidableEq

def proxyWithDst (prx : Proxy) (dst : List Char) : Proxy :=
  ⟨prx.uuid128, prx.address, dst, prx.channel, prx.record_id,
    prx.listen_watch, prx.rfcomm_watch, prx.local_watch, prx.proxy_ti⟩

def proxyWithWatches (prx : Proxy) (rfcommW localW : Nat) : Proxy :=
  ⟨prx.uuid128, prx.address, prx.dst, prx.channel, prx.record_id,
    prx.listen_watch, rfcommW, localW, prx.proxy_ti⟩

/-- `connect_event`: accept an inbound RFCOMM connection and splice it to
the local transport; when the local open/connect fails the accepted
socket is closed and the listener keeps running. -/
def connect_event (prx : Proxy) (inp : ConnectEventIn) : ConnectEventOut :=
  if inp.nval then ⟨prx, false, false⟩
  else if inp.errHup then ⟨prx, false, false⟩
  else if ¬ inp.acceptOk then ⟨prx, true, false⟩
  else
    let prx1 := proxyWithDst prx inp.peer
    if inp.localFd < 0 then ⟨prx1, true, true⟩
    else
      ⟨proxyWithWatches prx1 inp.newRfcommWatch inp.newLocalWatch, true, false⟩

/-! ## Auxiliary predicates and concrete fixtures -/

/-- Two pending connects target the same (address, pattern) pair in the
`strcasecmp` sense used by `find_pending_connect_by_pattern`. -/
def sameKey (a b : PendingConnect) : Prop :=
  strcaseEq a.bda b.bda = true ∧ strcaseEq a.pattern b.pattern = true

instance (a b : PendingConnect) : Decidable (sameKey a b) :=
  inferInstanceAs (Decidable (_ = _ ∧ _ = _))

/-- At most one pending connect per (remote address, pattern) pair. -/
def NoDupPending (reg : List PendingConnect) : Prop :=
  reg.Pairwise (fun a b => ¬ sameKey a b)

/-- Spec-side characterisation of the `NotSupported` conditions of channel
extraction: empty payload, unparsable record, trailing bytes after the
parse, no channel obtainable from the protocol descriptors, or a channel
outside [1,30]. -/
def extraction_fails (inp : RecordReplyIn) : Bool :=
  if inp.len = 0 then true
  else
    match inp.extract with
    | none => true
    | some scanned =>
      if inp.len ≠ scanned then true
      else if ¬ inp.accessProtosOk then true
      else if inp.protoPort < 1 ∨ inp.protoPort > 30 then true
      else false

/-- The parity strings `set_parity` accepts. -/
def parityValid (s : List Char) : Bool :=
  strcaseEq ['e', 'v', 'e', 'n'] s || strcaseEq ['o', 'd', 'd'] s
    || strcaseEq ['m', 'a', 'r', 'k'] s || strcaseEq ['n', 'o', 'n', 'e'] s
    || strcaseEq ['s', 'p', 'a', 'c', 'e'] s

/-- An environment in which every external call succeeds. -/
def env0 : Env := ⟨true, true, true, true, 111, 1⟩

def bda0 : List Char := "00:11:22:33:44:55".toList

/-- A registered, disabled TTY proxy with zeroed line settings. -/
def prx0 : Proxy :=
  ⟨"00001101-0000-1000-8000-00805F9B34FB".toList, "/dev/ttyS0".toList, [],
    0, 0, 0, 0, 0, ⟨0, 0, 0⟩⟩

/-! ## Lemmas about the string primitives and classifiers -/

theorem strcaseEq_false_of_head (a b : Char) (as bs : List Char)
    (h : tolowerC a ≠ tolowerC b) : strcaseEq (a :: as) (b :: bs) = false := by
  have hab : (tolowerC a == tolowerC b) = false := by
    cases hcb : tolowerC a == tolowerC b with
    | false => rfl
    | true => exact absurd (eq_of_beq hcb) h
  show ((tolowerC a == tolowerC b) && strcaseEq as bs) = false
  rw [hab]
  exact Bool.false_and _

/-- Strings that differ only in ASCII letter case are `strcaseEq`-equal. -/
theorem strcaseEq_of_map_tolower :
    ∀ (a b : List Char), a.map tolowerC = b.map tolowerC → strcaseEq a b = true := by
  intro a
  induction a with
  | nil => intro b h; cases b with
    | nil => rfl
    | cons x xs => simp at h
  | cons x xs ih =>
    intro b h
    cases b with
    | nil => simp at h
    | cons y ys =>
      simp only [List.map_cons, List.cons.injEq] at h
      show ((tolowerC x == tolowerC y) && strcaseEq xs ys) = true
      rw [h.1, ih ys h.2]
      simp

theorem startsWith0x_eq (p : List Char) (h : startsWith0x p = true) :
    ∃ b rest, p = '0' :: b :: rest ∧ (b = 'x' ∨ b = 'X') := by
  match p with
  | [] => simp [startsWith0x] at h
  | [a] => simp [startsWith0x] at h
  | a :: b :: rest =>
    simp only [startsWith0x, Bool.and_eq_true, Bool.or_eq_true, beq_iff_eq] at h
    exact ⟨b, rest, by rw [h.1], h.2⟩

theorem str2class_0x (b : Char) (rest : List Char) :
    str2class ('0' :: b :: rest) = 0 := by
  unfold str2class
  rw [strcaseEq_false_of_head 'v' '0' _ _ (by decide),
      strcaseEq_false_of_head 'p' '0' _ _ (by decide),
      strcaseEq_false_of_head 's' '0' _ _ (by decide),
      strcaseEq_false_of_head 'f' '0' _ _ (by decide),
      strcaseEq_false_of_head 'b' '0' _ _ (by decide),
      strcaseEq_false_of_head 'b' '0' _ _ (by decide),
      strcaseEq_false_of_head 's' '0' _ _ (by decide),
      strcaseEq_false_of_head 'd' '0' _ _ (by decide),
      strcaseEq_false_of_head 'o' '0' _ _ (by decide),
      strcaseEq_false_of_head 'f' '0' _ _ (by decide),
      strcaseEq_false_of_head 's' '0' _ _ (by decide)]
  simp

theorem uuidShape_0x (b : Char) (hb : b = 'x' ∨ b = 'X') (rest : List Char) :
    uuidShape ('0' :: b :: rest) = false := by
  have hb' : (tolowerC b == tolowerC '0') = false := by
    rcases hb with h | h <;> subst h <;> decide
  have hB : strcaseEq ('0' :: b :: List.take 1 rest) (List.take 3 BASE_UUID)
      = false := by
    rw [show List.take 3 BASE_UUID = ['0', '0', '0'] from rfl]
    simp only [strcaseEq, hb']
    simp
  unfold uuidShape
  rw [show List.take 3 ('0' :: b :: rest) = '0' :: b :: List.take 1 rest from rfl,
      hB]
  simp

theorem pattern2uuid128_0x (b : Char) (hb : b = 'x' ∨ b = 'X') (rest : List Char) :
    pattern2uuid128 ('0' :: b :: rest) = none := by
  simp [pattern2uuid128, str2class_0x, uuidShape_0x b hb rest]

/-! ## Claims -/

/-- **C1, counterexample.**  The pattern `"0x5"` parses (via `pattern2long`)
to the integer 5, which lies in [1,30]; yet `ConnectService` does not
connect on channel 5 — the `0x` prefix routes it into the record-handle
branch, which rejects it with `InvalidArgument` ("invalid record handle"),
issuing no RFCOMM connect at all. -/
theorem C1_counterexample :
    pattern2long "0x5".toList = some 5
    ∧ ((1 : Int) ≤ 5 ∧ (5 : Int) ≤ 30)
    ∧ connect_service_from_devid env0 [] bda0 "0x5".toList
        = (.invalidArguments "invalid record handle".toList, [], noActions) := by
  decide

/-- **C1 (amended).**  For every pattern that is not classified as a
friendly service name or UUID, does not begin with `0x`/`0X`, and parses
as an integer in [1,30], `ConnectService` performs no discovery round trip
(no handle lookup and no record fetch) and initiates the RFCOMM connect
directly on that literal channel. -/
theorem C1_theorem (env : Env) (reg : List PendingConnect) (bda p : List Char)
    (v : Int)
    (hu : pattern2uuid128 p = none)
    (hl : pattern2long p = some v)
    (h0x : startsWith0x p = false)
    (hlo : 1 ≤ v) (hhi : v ≤ 30)
    (hfind : find_pending_connect_by_pattern reg bda p = none)
    (had : env.adapterOk = true)
    (hconn : env.rfcommConnectOk = true) :
    connect_service_from_devid env reg bda p
      = (.handled, reg ++ [mkPendingCh bda p v], ⟨0, 0, 1, 0⟩) := by
  have hch : ¬ (v < 1 ∨ v > 30) := by omega
  simp [connect_service_from_devid, hfind, had, hu, hl, h0x, hch, hconn]

/-- Witness for C1: pattern `"7"` connects directly on channel 7. -/
theorem C1_witness :
    connect_service_from_devid env0 [] bda0 "7".toList
      = (.handled, [mkPendingCh bda0 "7".toList 7], ⟨0, 0, 1, 0⟩) :=
  C1_theorem env0 [] bda0 "7".toList 7 (by decide) (by decide) (by decide)
    (by decide) (by decide) (by decide) (by decide) (by decide)

/-- **C2, counterexample.**  The pattern `"65536"` parses to 65536 ≥
0x10000, but because it lacks the `0x` prefix it is not treated as a
record handle: `ConnectService` and `CreatePort` both reject it with
`InvalidArgument` ("invalid RFCOMM channel") and issue no record fetch. -/
theorem C2_counterexample :
    pattern2long "65536".toList = some 65536
    ∧ (65536 : Int) ≥ 0x10000
    ∧ connect_service_from_devid env0 [] bda0 "65536".toList
        = (.invalidArguments "invalid RFCOMM channel".toList, [], noActions)
    ∧ create_port env0 [] bda0 "65536".toList
        = (.invalidArguments "invalid RFCOMM channel".toList, [], noActions) := by
  decide

/-- **C2 (amended).**  For every `0x`/`0X`-prefixed pattern that parses as
an integer ≥ 0x10000, Submit (`ConnectService` as well as `CreatePort`)
issues exactly one record-fetch request and no handle-lookup request
before proceeding.  (Decimal forms of such integers are instead rejected
as invalid channels; see the counterexample.) -/
theorem C2_theorem (env : Env) (reg : List PendingConnect) (bda p : List Char)
    (v : Int)
    (h0x : startsWith0x p = true)
    (hl : pattern2long p = some v)
    (hv : 0x10000 ≤ v)
    (hfind : find_pending_connect_by_pattern reg bda p = none)
    (had : env.adapterOk = true)
    (hrec : env.sendRecordOk = true) :
    connect_service_from_devid env reg bda p
      = (.handled, reg ++ [mkPending bda p], ⟨0, 1, 0, 0⟩)
    ∧ create_port env reg bda p
      = (.handled, reg ++ [mkPending bda p], ⟨0, 1, 0, 0⟩) := by
  obtain ⟨b, rest, rfl, hb⟩ := startsWith0x_eq p h0x
  have hu := pattern2uuid128_0x b hb rest
  have hlt : ¬ (v < 0x10000) := by omega
  constructor <;>
    simp [connect_service_from_devid, create_port, hfind, had, hu, hl, h0x,
      hlt, hrec]

/-- Witness for C2: pattern `"0x10001"` yields exactly one record fetch on
both entry points. -/
theorem C2_witness :
    connect_service_from_devid env0 [] bda0 "0x10001".toList
      = (.handled, [mkPending bda0 "0x10001".toList], ⟨0, 1, 0, 0⟩)
    ∧ create_port env0 [] bda0 "0x10001".toList
      = (.handled, [mkPending bda0 "0x10001".toList], ⟨0, 1, 0, 0⟩) :=
  C2_theorem env0 [] bda0 "0x10001".toList 65537 (by decide) (by decide)
    (by decide) (by decide) (by decide) (by decide)

theorem noDup_append (reg : List PendingConnect) (pc : PendingConnect)
    (bda p : List Char)
    (h : NoDupPending reg)
    (hfind : find_pending_connect_by_pattern reg bda p = none)
    (hb : pc.bda = bda) (hp : pc.pattern = p) :
    NoDupPending (reg ++ [pc]) := by
  have hall := List.find?_eq_none.mp hfind
  refine List.pairwise_append.mpr ⟨h, List.pairwise_singleton _ _, ?_⟩
  intro a ha b hbmem
  rw [List.mem_singleton] at hbmem
  subst hbmem
  intro hsk
  unfold sameKey at hsk
  rw [hb] at hsk
  rw [hp] at hsk
  have := hall a ha
  simp [hsk.1, hsk.2] at this

theorem connect_service_reg_cases (env : Env) (reg : List PendingConnect)
    (bda p : List Char)
    (h : find_pending_connect_by_pattern reg bda p = none) :
    (connect_service_from_devid env reg bda p).2.1 = reg
    ∨ (connect_service_from_devid env reg bda p).2.1 = reg ++ [mkPending bda p]
    ∨ ∃ v, (connect_service_from_devid env reg bda p).2.1
        = reg ++ [mkPendingCh bda p v] := by
  unfold connect_service_from_devid
  rw [h]
  repeat' split
  all_goals first
    | exact Or.inl rfl
    | exact Or.inr (Or.inl rfl)
    | exact Or.inr (Or.inr ⟨_, rfl⟩)

theorem create_port_reg_cases (env : Env) (reg : List PendingConnect)
    (bda p : List Char)
    (h : find_pending_connect_by_pattern reg bda p = none) :
    (create_port env reg bda p).2.1 = reg
    ∨ (create_port env reg bda p).2.1 = reg ++ [mkPending bda p] := by
  unfold create_port
  rw [h]
  repeat' split
  all_goals first
    | exact Or.inl rfl
    | exact Or.inr rfl

/-- **C3.**  If a pending connection for (remoteAddress, pattern) is
registered, a second Submit (`ConnectService` or `CreatePort`) with the
same pair fails with `InProgress` and leaves the pending set unchanged;
moreover both Submit paths preserve the invariant that at most one pending
connection exists per (address, pattern) pair. -/
theorem C3_theorem (env : Env) (reg : List PendingConnect) (bda p : List Char) :
    ((find_pending_connect_by_pattern reg bda p).isSome →
      connect_service_from_devid env reg bda p = (.inProgress, reg, noActions)
      ∧ create_port env reg bda p = (.inProgress, reg, noActions))
    ∧ (NoDupPending reg →
        NoDupPending (connect_service_from_devid env reg bda p).2.1
        ∧ NoDupPending (create_port env reg bda p).2.1) := by
  constructor
  · intro hsome
    obtain ⟨q, hq⟩ := Option.isSome_iff_exists.mp hsome
    constructor <;> simp [connect_service_from_devid, create_port, hq]
  · intro hnd
    cases hfind : find_pending_connect_by_pattern reg bda p with
    | some q =>
      constructor <;> simp [connect_service_from_devid, create_port, hfind, hnd]
    | none =>
      constructor
      · rcases connect_service_reg_cases env reg bda p hfind with h | h | ⟨v, h⟩ <;>
          rw [h]
        · exact hnd
        · exact noDup_append reg _ bda p hnd hfind rfl rfl
        · exact noDup_append reg _ bda p hnd hfind rfl rfl
      · rcases create_port_reg_cases env reg bda p hfind with h | h <;> rw [h]
        · exact hnd
        · exact noDup_append reg _ bda p hnd hfind rfl rfl

/-- Witness for C3: a duplicate `ConnectService`/`CreatePort` for the
already-pending pair (`bda0`, "dun") is rejected with `InProgress` and the
registry (which satisfies the invariant) is unchanged. -/
theorem C3_witness :
    (connect_service_from_devid env0 [mkPending bda0 "dun".toList] bda0
        "dun".toList
      = (.inProgress, [mkPending bda0 "dun".toList], noActions)
    ∧ create_port env0 [mkPending bda0 "dun".toList] bda0 "dun".toList
      = (.inProgress, [mkPending bda0 "dun".toList], noActions))
    ∧ (NoDupPending
        (connect_service_from_devid env0 [mkPending bda0 "dun".toList] bda0
          "dun".toList).2.1
      ∧ NoDupPending
        (create_port env0 [mkPending bda0 "dun".toList] bda0 "dun".toList).2.1) :=
  ⟨(C3_theorem env0 [mkPending bda0 "dun".toList] bda0 "dun".toList).1
      (by decide),
    (C3_theorem env0 [mkPending bda0 "dun".toList] bda0 "dun".toList).2
      (by simp [NoDupPending])⟩

/-- **C10.**  Duplicate detection compares both address and pattern
case-insensitively: when a pending connect is registered and a second
Submit (`ConnectService` or `CreatePort`) supplies an address and pattern
that differ from it only in ASCII letter case, the second call is rejected
with `InProgress` and the pending set is unchanged, exactly as for an
identical pair. -/
theorem C10_theorem (env : Env) (reg : List PendingConnect)
    (bda' p' : List Char) (pc : PendingConnect) (hmem : pc ∈ reg)
    (hb : pc.bda.map tolowerC = bda'.map tolowerC)
    (hp : pc.pattern.map tolowerC = p'.map tolowerC) :
    connect_service_from_devid env reg bda' p' = (.inProgress, reg, noActions)
    ∧ create_port env reg bda' p' = (.inProgress, reg, noActions) := by
  have hfind : (find_pending_connect_by_pattern reg bda' p').isSome := by
    apply List.find?_isSome.mpr
    refine ⟨pc, hmem, ?_⟩
    rw [strcaseEq_of_map_tolower _ _ hb, strcaseEq_of_map_tolower _ _ hp]
    rfl
  obtain ⟨q, hq⟩ := Option.isSome_iff_exists.mp hfind
  constructor <;> simp [connect_service_from_devid, create_port,
    find_pending_connect_by_pattern] at hq ⊢ <;>
    simp [find_pending_connect_by_pattern, hq]

/-- Witness for C10: `"AA:BB:CC:DD:EE:FF"/"DUN"` pending blocks a submit of
`"aa:bb:cc:dd:ee:ff"/"dun"`. -/
theorem C10_witness :
    connect_service_from_devid env0
        [mkPending "AA:BB:CC:DD:EE:FF".toList "DUN".toList]
        "aa:bb:cc:dd:ee:ff".toList "dun".toList
      = (.inProgress, [mkPending "AA:BB:CC:DD:EE:FF".toList "DUN".toList],
          noActions)
    ∧ create_port env0 [mkPending "AA:BB:CC:DD:EE:FF".toList "DUN".toList]
        "aa:bb:cc:dd:ee:ff".toList "dun".toList
      = (.inProgress, [mkPending "AA:BB:CC:DD:EE:FF".toList "DUN".toList],
          noActions) :=
  C10_theorem env0 [mkPending "AA:BB:CC:DD:EE:FF".toList "DUN".toList]
    "aa:bb:cc:dd:ee:ff".toList "dun".toList
    (mkPending "AA:BB:CC:DD:EE:FF".toList "DUN".toList)
    (by decide) (by decide) (by decide)

/-- **C9.**  Each asynchronous callback that re-validates its pending
connect — the handle-lookup reply, the record-fetch reply, and the
device-open retry tick — discards its event silently when the pending
connect is no longer in the registry: no reply is sent, the registry is
untouched, and no follow-up action is issued (the retry tick additionally
cancels its timer by returning `false`). -/
theorem C9_theorem (reg : List PendingConnect) (pc : PendingConnect)
    (hi : HandlesReplyIn) (ri : RecordReplyIn) (openOk : Bool) (errno : Int)
    (h : reg.contains pc = false) :
    handles_reply reg pc hi = ⟨none, reg, false, false, false⟩
    ∧ record_reply reg pc ri = ⟨none, reg, false, false, false⟩
    ∧ open_continue_tick reg pc openOk errno
      = (⟨none, reg, false, false, false⟩, false) := by
  have h' : pc ∉ reg := by simpa using h
  refine ⟨?_, ?_, ?_⟩ <;>
    simp [handles_reply, record_reply, open_continue_tick, h']

/-- Witness for C9: a pending connect absent from an empty registry is
ignored by all three callbacks. -/
theorem C9_witness :
    handles_reply [] (mkPending bda0 "dun".toList) ⟨false, false, true, 1, true⟩
      = ⟨none, [], false, false, false⟩
    ∧ record_reply [] (mkPending bda0 "dun".toList)
        ⟨false, false, true, 8, some 8, true, 3, false, 1, true, 0⟩
      = ⟨none, [], false, false, false⟩
    ∧ open_continue_tick [] (mkPending bda0 "dun".toList) true 2
      = (⟨none, [], false, false, false⟩, false) :=
  C9_theorem [] (mkPending bda0 "dun".toList) ⟨false, false, true, 1, true⟩
    ⟨false, false, true, 8, some 8, true, 3, false, 1, true, 0⟩ true 2
    (by decide)

/-- **C6.**  For a registered pending connect whose cancellation flag is
set, every next checkpoint — handle-lookup reply, record-fetch reply,
connect completion, and device-open completion — replies with the
canceled-operation error instead of success and leaves no bound device
behind: the three callbacks bind nothing and start nothing, and
`open_notify` (device-open completion, where a device exists) releases the
bound device on every canceled path. -/
theorem C6_theorem (reg : List PendingConnect) (pc : PendingConnect)
    (hi : HandlesReplyIn) (ri : RecordReplyIn) (ci : ConnectCbIn)
    (hmem : reg.contains pc = true) (hc : pc.canceled = true) :
    handles_reply reg pc hi = ⟨some .canceled, reg.erase pc, false, false, false⟩
    ∧ record_reply reg pc ri
      = ⟨some .canceled, reg.erase pc, false, false, false⟩
    ∧ rfcomm_connect_cb reg pc ci
      = ⟨some .canceled, reg.erase pc, false, false, false⟩
    ∧ open_notify 0 true = ⟨.canceled, true, false⟩
    ∧ (∀ e : Int, (open_notify e true).released = true
        ∧ (open_notify e true).reply ≠ .success) := by
  have hmem' : pc ∈ reg := by simpa using hmem
  refine ⟨?_, ?_, ?_, ?_, ?_⟩
  · simp [handles_reply, hmem', hc]
  · simp [record_reply, hmem', hc]
  · simp [rfcomm_connect_cb, hc]
  · simp [open_notify]
  · intro e
    by_cases he : e = 0 <;> simp [open_notify, he]

/-- Witness for C6: a canceled pending connect in a singleton registry. -/
theorem C6_witness :
    handles_reply [⟨bda0, "dun".toList, 0, -1, 0, true⟩]
        ⟨bda0, "dun".toList, 0, -1, 0, true⟩ ⟨false, false, true, 1, true⟩
      = ⟨some .canceled, [], false, false, false⟩
    ∧ record_reply [⟨bda0, "dun".toList, 0, -1, 0, true⟩]
        ⟨bda0, "dun".toList, 0, -1, 0, true⟩
        ⟨false, false, true, 8, some 8, true, 3, false, 1, true, 0⟩
      = ⟨some .canceled, [], false, false, false⟩
    ∧ rfcomm_connect_cb [⟨bda0, "dun".toList, 0, -1, 0, true⟩]
        ⟨bda0, "dun".toList, 0, -1, 0, true⟩ ⟨false, true, 0, 0, 3, true⟩
      = ⟨some .canceled, [], false, false, false⟩
    ∧ open_notify 0 true = ⟨.canceled, true, false⟩
    ∧ ((open_notify 5 true).released = true
        ∧ (open_notify 5 true).reply ≠ .success) := by
  have h := C6_theorem [⟨bda0, "dun".toList, 0, -1, 0, true⟩]
    ⟨bda0, "dun".toList, 0, -1, 0, true⟩ ⟨false, false, true, 1, true⟩
    ⟨false, false, true, 8, some 8, true, 3, false, 1, true, 0⟩
    ⟨false, true, 0, 0, 3, true⟩ (by decide) (by decide)
  exact ⟨h.1, h.2.1, h.2.2.1, h.2.2.2.1, h.2.2.2.2 5⟩

/-- **C5.**  For a registered, uncanceled pending connect whose record
fetch delivered a payload, channel extraction replies `NotSupported`
exactly when the payload is empty, the record cannot be parsed, the parse
does not consume the whole payload, no RFCOMM channel can be obtained from
the protocol descriptors, or the channel lies outside [1,30]; and in every
such case no device is bound and no connect is initiated. -/
theorem C5_theorem (reg : List PendingConnect) (pc : PendingConnect)
    (inp : RecordReplyIn)
    (hmem : reg.contains pc = true) (hc : pc.canceled = false)
    (hde : inp.dbusError = false) (hargs : inp.argsOk = true) :
    ((record_reply reg pc inp).reply = some .notSupported
      ↔ extraction_fails inp = true)
    ∧ (extraction_fails inp = true →
        (record_reply reg pc inp).bound = false
        ∧ (record_reply reg pc inp).connectStarted = false) := by
  have hmem' : pc ∈ reg := by simpa using hmem
  obtain ⟨de, decf, ao, len, ext, apo, pp, icp, br, co, ce⟩ := inp
  simp only at hde hargs
  subst hde hargs
  cases ext with
  | none =>
    simp [record_reply, extraction_fails, hmem', hc]
  | some scanned =>
    by_cases h0 : len = 0
    · simp [record_reply, extraction_fails, hmem', hc, h0]
    · by_cases h1 : len = scanned
      · subst h1
        by_cases h2 : apo = true
        · by_cases h3 : pp < 1 ∨ pp > 30
          · simp [record_reply, extraction_fails, hmem', hc, h0, h2, h3]
          · by_cases h4 : icp = true
            · by_cases h5 : br < 0 <;>
                simp [record_reply, extraction_fails, hmem', hc, h0, h2,
                  h3, h4, h5]
            · by_cases h6 : co = true <;>
                simp [record_reply, extraction_fails, hmem', hc, h0, h2,
                  h3, h4, h6]
        · have h2' : apo = false := by simpa using h2
          simp [record_reply, extraction_fails, hmem', hc, h0, h2']
      · simp [record_reply, extraction_fails, hmem', hc, h0, h1]

/-- Witness for C5: an empty payload yields `NotSupported`, binding
nothing and connecting nothing. -/
theorem C5_witness :
    ((record_reply [mkPending bda0 "dun".toList] (mkPending bda0 "dun".toList)
        ⟨false, false, true, 0, none, true, 3, false, 1, true, 0⟩).reply
      = some .notSupported
      ↔ extraction_fails ⟨false, false, true, 0, none, true, 3, false, 1, true, 0⟩
        = true)
    ∧ (extraction_fails ⟨false, false, true, 0, none, true, 3, false, 1, true, 0⟩
        = true →
        (record_reply [mkPending bda0 "dun".toList]
          (mkPending bda0 "dun".toList)
          ⟨false, false, true, 0, none, true, 3, false, 1, true, 0⟩).bound = false
        ∧ (record_reply [mkPending bda0 "dun".toList]
            (mkPending bda0 "dun".toList)
            ⟨false, false, true, 0, none, true, 3, false, 1, true, 0⟩).connectStarted
          = false) :=
  C5_theorem [mkPending bda0 "dun".toList] (mkPending bda0 "dun".toList)
    ⟨false, false, true, 0, none, true, 3, false, 1, true, 0⟩
    (by decide) (by decide) (by decide) (by decide)

theorem open_continue_loop_unfold (e : Int) (c : Bool) (g : Nat → Bool)
    (r k : Nat) :
    open_continue_loop e c g (r + 1) k
      = if g k then (1, (open_notify 0 c).reply, (open_notify 0 c).released)
        else if r = 0 then
          (1, (open_notify e c).reply, (open_notify e c).released)
        else ((open_continue_loop e c g r (k + 1)).1 + 1,
              (open_continue_loop e c g r (k + 1)).2) := rfl

theorem open_continue_loop_one (e : Int) (c : Bool) (g : Nat → Bool) (k : Nat) :
    open_continue_loop e c g 1 k
      = if g k then (1, (open_notify 0 c).reply, (open_notify 0 c).released)
        else (1, (open_notify e c).reply, (open_notify e c).released) := rfl

theorem open_continue_loop_two (e : Int) (c : Bool) (g : Nat → Bool) (k : Nat) :
    open_continue_loop e c g 2 k
      = if g k then (1, (open_notify 0 c).reply, (open_notify 0 c).released)
        else ((open_continue_loop e c g 1 (k + 1)).1 + 1,
              (open_continue_loop e c g 1 (k + 1)).2) := rfl

theorem open_continue_loop_three (e : Int) (c : Bool) (g : Nat → Bool) (k : Nat) :
    open_continue_loop e c g 3 k
      = if g k then (1, (open_notify 0 c).reply, (open_notify 0 c).released)
        else ((open_continue_loop e c g 2 (k + 1)).1 + 1,
              (open_continue_loop e c g 2 (k + 1)).2) := rfl

theorem open_continue_loop_four (e : Int) (c : Bool) (g : Nat → Bool) (k : Nat) :
    open_continue_loop e c g 4 k
      = if g k then (1, (open_notify 0 c).reply, (open_notify 0 c).released)
        else ((open_continue_loop e c g 3 (k + 1)).1 + 1,
              (open_continue_loop e c g 3 (k + 1)).2) := rfl

theorem open_continue_loop_five (e : Int) (c : Bool) (g : Nat → Bool) (k : Nat) :
    open_continue_loop e c g 5 k
      = if g k then (1, (open_notify 0 c).reply, (open_notify 0 c).released)
        else ((open_continue_loop e c g 4 (k + 1)).1 + 1,
              (open_continue_loop e c g 4 (k + 1)).2) := rfl

theorem open_continue_loop_le (e : Int) (c : Bool) (g : Nat → Bool) :
    ∀ r k, (open_continue_loop e c g r k).1 ≤ r := by
  intro r
  induction r with
  | zero => intro k; exact Nat.le_refl 0
  | succ n ih =>
    intro k
    rw [open_continue_loop_unfold]
    split
    · simp
    · split
      · simp
      · simpa using Nat.succ_le_succ (ih (k + 1))

/-- **C4, counterexample.**  When the device node never materialises, the
device-open phase opens the path 6 times in total (one immediate attempt
in `port_open` plus `MAX_OPEN_TRIES` = 5 timer retries), not at most 5. -/
theorem C4_counterexample :
    (port_open_process 2 false (fun _ => false)).1 = 6
    ∧ ¬ ((port_open_process 2 false (fun _ => false)).1 ≤ 5) := by decide

/-- **C4 (amended).**  The bound device path is opened at most 6 times in
total (one immediate attempt plus at most `MAX_OPEN_TRIES` = 5 retries,
spaced `OPEN_WAIT` = 300 ms apart); if every attempt fails the request
fails with the open error carrying the errno and the bound device is
released, and if attempt N (0-indexed, N ≤ 5) is the first to succeed the
request succeeds with no error and no release. -/
theorem C4_theorem (e : Int) (he : e ≠ 0) (g : Nat → Bool) :
    OPEN_WAIT = 300
    ∧ (port_open_process e false g).1 ≤ 1 + MAX_OPEN_TRIES
    ∧ ((∀ k, k < 1 + MAX_OPEN_TRIES → g k = false) →
        port_open_process e false g = (6, .connectionAttemptFailed e, true))
    ∧ (∀ N, N < 1 + MAX_OPEN_TRIES → g N = true →
        (∀ j, j < N → g j = false) →
        port_open_process e false g = (N + 1, .success, false)) := by
  refine ⟨rfl, ?_, ?_, ?_⟩
  · unfold port_open_process
    split
    · simp [MAX_OPEN_TRIES]
    · have hle := open_continue_loop_le e false g MAX_OPEN_TRIES 1
      have h5 : MAX_OPEN_TRIES = 5 := rfl
      rw [h5] at hle ⊢
      show (open_continue_loop e false g 5 1).1 + 1 ≤ 1 + 5
      omega
  · intro hall
    have e0 := hall 0 (by decide)
    have e1 := hall 1 (by decide)
    have e2 := hall 2 (by decide)
    have e3 := hall 3 (by decide)
    have e4 := hall 4 (by decide)
    have e5 := hall 5 (by decide)
    have l1 : open_continue_loop e false g 1 5
        = (1, .connectionAttemptFailed e, true) := by
      rw [open_continue_loop_one]; simp [e5, open_notify, he]
    have l2 : open_continue_loop e false g 2 4
        = (2, .connectionAttemptFailed e, true) := by
      rw [open_continue_loop_two]; simp [e4, l1]
    have l3 : open_continue_loop e false g 3 3
        = (3, .connectionAttemptFailed e, true) := by
      rw [open_continue_loop_three]; simp [e3, l2]
    have l4 : open_continue_loop e false g 4 2
        = (4, .connectionAttemptFailed e, true) := by
      rw [open_continue_loop_four]; simp [e2, l3]
    have l5 : open_continue_loop e false g 5 1
        = (5, .connectionAttemptFailed e, true) := by
      rw [open_continue_loop_five]; simp [e1, l4]
    unfold port_open_process
    rw [if_neg (by simp [e0])]
    show ((open_continue_loop e false g MAX_OPEN_TRIES 1).1 + 1,
      (open_continue_loop e false g MAX_OPEN_TRIES 1).2)
      = (6, .connectionAttemptFailed e, true)
    have h5 : MAX_OPEN_TRIES = 5 := rfl
    rw [h5, l5]
  · intro N hN hg hj
    have hN6 : N < 6 := hN
    have h5 : MAX_OPEN_TRIES = 5 := rfl
    interval_cases N
    · unfold port_open_process
      rw [if_pos (by simp [hg])]
      simp [open_notify]
    · have j0 := hj 0 (by omega)
      have l5 : open_continue_loop e false g 5 1 = (1, .success, false) := by
        rw [open_continue_loop_five]; simp [hg, open_notify]
      unfold port_open_process
      rw [if_neg (by simp [j0])]
      show ((open_continue_loop e false g MAX_OPEN_TRIES 1).1 + 1,
        (open_continue_loop e false g MAX_OPEN_TRIES 1).2)
        = (2, .success, false)
      rw [h5, l5]
    · have j0 := hj 0 (by omega)
      have j1 := hj 1 (by omega)
      have l4 : open_continue_loop e false g 4 2 = (1, .success, false) := by
        rw [open_continue_loop_four]; simp [hg, open_notify]
      have l5 : open_continue_loop e false g 5 1 = (2, .success, false) := by
        rw [open_continue_loop_five]; simp [j1, l4]
      unfold port_open_process
      rw [if_neg (by simp [j0])]
      show ((open_continue_loop e false g MAX_OPEN_TRIES 1).1 + 1,
        (open_continue_loop e false g MAX_OPEN_TRIES 1).2)
        = (3, .success, false)
      rw [h5, l5]
    · have j0 := hj 0 (by omega)
      have j1 := hj 1 (by omega)
      have j2 := hj 2 (by omega)
      have l3 : open_continue_loop e false g 3 3 = (1, .success, false) := by
        rw [open_continue_loop_three]; simp [hg, open_notify]
      have l4 : open_continue_loop e false g 4 2 = (2, .success, false) := by
        rw [open_continue_loop_four]; simp [j2, l3]
      have l5 : open_continue_loop e false g 5 1 = (3, .success, false) := by
        rw [open_continue_loop_five]; simp [j1, l4]
      unfold port_open_process
      rw [if_neg (by simp [j0])]
      show ((open_continue_loop e false g MAX_OPEN_TRIES 1).1 + 1,
        (open_continue_loop e false g MAX_OPEN_TRIES 1).2)
        = (4, .success, false)
      rw [h5, l5]
    · have j0 := hj 0 (by omega)
      have j1 := hj 1 (by omega)
      have j2 := hj 2 (by omega)
      have j3 := hj 3 (by omega)
      have l2 : open_continue_loop e false g 2 4 = (1, .success, false) := by
        rw [open_continue_loop_two]; simp [hg, open_notify]
      have l3 : open_continue_loop e false g 3 3 = (2, .success, false) := by
        rw [open_continue_loop_three]; simp [j3, l2]
      have l4 : open_continue_loop e false g 4 2 = (3, .success, false) := by
        rw [open_continue_loop_four]; simp [j2, l3]
      have l5 : open_continue_loop e false g 5 1 = (4, .success, false) := by
        rw [open_continue_loop_five]; simp [j1, l4]
      unfold port_open_process
      rw [if_neg (by simp [j0])]
      show ((open_continue_loop e false g MAX_OPEN_TRIES 1).1 + 1,
        (open_continue_loop e false g MAX_OPEN_TRIES 1).2)
        = (5, .success, false)
      rw [h5, l5]
    · have j0 := hj 0 (by omega)
      have j1 := hj 1 (by omega)
      have j2 := hj 2 (by omega)
      have j3 := hj 3 (by omega)
      have j4 := hj 4 (by omega)
      have l1 : open_continue_loop e false g 1 5 = (1, .success, false) := by
        rw [open_continue_loop_one]; simp [hg, open_notify]
      have l2 : open_continue_loop e false g 2 4 = (2, .success, false) := by
        rw [open_continue_loop_two]; simp [j4, l1]
      have l3 : open_continue_loop e false g 3 3 = (3, .success, false) := by
        rw [open_continue_loop_three]; simp [j3, l2]
      have l4 : open_continue_loop e false g 4 2 = (4, .success, false) := by
        rw [open_continue_loop_four]; simp [j2, l3]
      have l5 : open_continue_loop e false g 5 1 = (5, .success, false) := by
        rw [open_continue_loop_five]; simp [j1, l4]
      unfold port_open_process
      rw [if_neg (by simp [j0])]
      show ((open_continue_loop e false g MAX_OPEN_TRIES 1).1 + 1,
        (open_continue_loop e false g MAX_OPEN_TRIES 1).2)
        = (6, .success, false)
      rw [h5, l5]

/-- Witness for C4: with the device appearing on the fourth attempt the
request succeeds after exactly 4 opens. -/
theorem C4_witness :
    OPEN_WAIT = 300
    ∧ (port_open_process 2 false (fun k => decide (k = 3))).1
        ≤ 1 + MAX_OPEN_TRIES
    ∧ port_open_process 2 false (fun k => decide (k = 3))
        = (4, .success, false) := by
  have h := C4_theorem 2 (by decide) (fun k => decide (k = 3))
  exact ⟨h.1, h.2.1, h.2.2.2 3 (by decide) (by decide) (by decide)⟩

theorem proxy_get_info_withTi (prx : Proxy) (ti : Termios) :
    proxy_get_info (proxyWithTi prx ti) = proxy_get_info prx := rfl

theorem set_serial_params_cases (prx : Proxy) (r : List Char) (db sb : Nat)
    (par : List Char) :
    (proxy_set_serial_params prx r db sb par).2 = prx
    ∨ ∃ ti, proxy_set_serial_params prx r db sb par
        = (.success, proxyWithTi prx ti) := by
  unfold proxy_set_serial_params
  repeat' split
  all_goals first
    | exact Or.inl rfl
    | exact Or.inr ⟨_, rfl⟩

/-- **C7, counterexample.**  On a disconnected character-device proxy, a
valid `SetSerialParameters("9600", 8, 1, "none")` succeeds and changes the
stored line settings, yet the `GetInfo` dictionary is bit-for-bit the same
before and after: the updated settings are not observable through
`GetInfo`, which never exposes serial parameters. -/
theorem C7_counterexample :
    (proxy_set_serial_params prx0 "9600".toList 8 1 "none".toList).1 = .success
    ∧ (proxy_set_serial_params prx0 "9600".toList 8 1 "none".toList).2.proxy_ti
        ≠ prx0.proxy_ti
    ∧ proxy_get_info
        (proxy_set_serial_params prx0 "9600".toList 8 1 "none".toList).2
      = proxy_get_info prx0 := by decide

/-- **C7 (amended).**  `SetSerialParameters` is rejected with `NotAllowed`
(the "Not allowed" failure) whenever a peer is connected; with no peer
connected, a call with a supported baud rate, data bits in [5,8], stop
bits in {1,2} and a recognised parity succeeds and updates the stored line
settings used on the next local-device open; any out-of-range rate, data
bits, stop bits or parity value is rejected with `InvalidArgument` and
leaves the proxy unchanged; and the
stored line settings are not observable through `GetInfo`, whose output is
unaffected by the call. -/
theorem C7_theorem (prx : Proxy) (r : List Char) (db sb : Nat)
    (par : List Char) :
    (prx.local_watch ≠ 0 →
      proxy_set_serial_params prx r db sb par = (.notAllowed, prx))
    ∧ (prx.local_watch = 0 → str2speed r ≠ B0 → 5 ≤ db → db ≤ 8 →
        (sb = 1 ∨ sb = 2) → parityValid par = true →
        ∃ c1 c2 c3,
          set_databits db prx.proxy_ti.c_cflag = some c1
          ∧ set_stopbits sb c1 = some c2
          ∧ set_parity par c2 = some c3
          ∧ proxy_set_serial_params prx r db sb par
            = (.success, proxyWithTi prx
                ⟨(c3 ||| CLOCAL) ||| CREAD, str2speed r, str2speed r⟩))
    ∧ (prx.local_watch = 0 →
        (str2speed r = B0 ∨ db < 5 ∨ db > 8 ∨ (sb ≠ 1 ∧ sb ≠ 2)
          ∨ parityValid par = false) →
        ∃ m, proxy_set_serial_params prx r db sb par
          = (.invalidArguments m, prx))
    ∧ ((proxy_set_serial_params prx r db sb par).1 ≠ .success →
        (proxy_set_serial_params prx r db sb par).2 = prx)
    ∧ proxy_get_info (proxy_set_serial_params prx r db sb par).2
      = proxy_get_info prx := by
  refine ⟨?_, ?_, ?_, ?_, ?_⟩
  · intro h
    simp [proxy_set_serial_params, h]
  · intro h0 hr h5 h8 hsb hpar
    obtain ⟨c1, hc1⟩ : ∃ c1, set_databits db prx.proxy_ti.c_cflag = some c1 := by
      unfold set_databits
      rw [if_neg (by omega)]
      exact ⟨_, rfl⟩
    obtain ⟨c2, hc2⟩ : ∃ c2, set_stopbits sb c1 = some c2 := by
      unfold set_stopbits
      rcases hsb with rfl | rfl
      · exact ⟨_, rfl⟩
      · exact ⟨_, rfl⟩
    obtain ⟨c3, hc3⟩ : ∃ c3, set_parity par c2 = some c3 := by
      unfold set_parity
      split
      · exact ⟨_, rfl⟩
      · split
        · exact ⟨_, rfl⟩
        · split
          · exact ⟨_, rfl⟩
          · split
            · exact ⟨_, rfl⟩
            · exfalso
              unfold parityValid at hpar
              simp_all
    exact ⟨c1, c2, c3, hc1, hc2, hc3, by
      simp [proxy_set_serial_params, h0, hr, hc1, hc2, hc3]⟩
  · intro h0 hbad
    by_cases hr : str2speed r = B0
    · exact ⟨"Invalid baud rate".toList,
        by simp [proxy_set_serial_params, h0, hr]⟩
    · by_cases hdb : db < 5 ∨ db > 8
      · have hdn : set_databits db prx.proxy_ti.c_cflag = none := by
          unfold set_databits
          rw [if_pos hdb]
        exact ⟨"Invalid data bits".toList,
          by simp [proxy_set_serial_params, h0, hr, hdn]⟩
      · obtain ⟨c1, hc1⟩ : ∃ c1, set_databits db prx.proxy_ti.c_cflag = some c1 := by
          unfold set_databits
          rw [if_neg hdb]
          exact ⟨_, rfl⟩
        by_cases hsb : sb = 1 ∨ sb = 2
        · obtain ⟨c2, hc2⟩ : ∃ c2, set_stopbits sb c1 = some c2 := by
            unfold set_stopbits
            rcases hsb with rfl | rfl
            · exact ⟨_, rfl⟩
            · exact ⟨_, rfl⟩
          have hpar : parityValid par = false := by
            rcases hbad with h | h | h | h | h
            · exact absurd h hr
            · exact absurd (Or.inl h) hdb
            · exact absurd (Or.inr h) hdb
            · rcases hsb with h1 | h1
              · exact absurd h1 h.1
              · exact absurd h1 h.2
            · exact h
          have hpn : set_parity par c2 = none := by
            unfold parityValid at hpar
            simp only [Bool.or_eq_false_iff] at hpar
            unfold set_parity
            rw [if_neg (by simp [hpar.1.1.1.1]),
                if_neg (by simp [hpar.1.1.1.2]),
                if_neg (by simp [hpar.1.1.2]),
                if_neg (by simp [hpar.1.2, hpar.2])]
          exact ⟨"Invalid parity".toList,
            by simp [proxy_set_serial_params, h0, hr, hc1, hc2, hpn]⟩
        · have hsn : set_stopbits sb c1 = none := by
            unfold set_stopbits
            rw [if_neg (by omega), if_neg (by omega)]
          exact ⟨"Invalid stop bits".toList,
            by simp [proxy_set_serial_params, h0, hr, hc1, hsn]⟩
  · intro hne
    rcases set_serial_params_cases prx r db sb par with h | ⟨ti, h⟩
    · exact h
    · exact absurd (by rw [h]) hne
  · rcases set_serial_params_cases prx r db sb par with h | ⟨ti, h⟩
    · rw [h]
    · rw [h, proxy_get_info_withTi]

/-- Witness for C7: on the disconnected proxy `prx0`, a valid call
(rate "9600", 8 data bits, 1 stop bit, parity "none") succeeds; an
out-of-range call (3 data bits) is rejected with `InvalidArgument`
leaving the proxy unchanged; and `GetInfo` is unaffected by the valid
call. -/
theorem C7_witness :
    (∃ c1 c2 c3,
        set_databits 8 prx0.proxy_ti.c_cflag = some c1
        ∧ set_stopbits 1 c1 = some c2
        ∧ set_parity "none".toList c2 = some c3
        ∧ proxy_set_serial_params prx0 "9600".toList 8 1 "none".toList
          = (.success, proxyWithTi prx0
              ⟨(c3 ||| CLOCAL) ||| CREAD, str2speed "9600".toList,
                str2speed "9600".toList⟩))
    ∧ (∃ m, proxy_set_serial_params prx0 "9600".toList 3 1 "none".toList
        = (.invalidArguments m, prx0))
    ∧ proxy_get_info
        (proxy_set_serial_params prx0 "9600".toList 8 1 "none".toList).2
      = proxy_get_info prx0 :=
  ⟨(C7_theorem prx0 "9600".toList 8 1 "none".toList).2.1 (by decide)
      (by decide) (by decide) (by decide) (Or.inl rfl) (by decide),
    (C7_theorem prx0 "9600".toList 3 1 "none".toList).2.2.1 (by decide)
      (Or.inr (Or.inl (by decide))),
    (C7_theorem prx0 "9600".toList 8 1 "none".toList).2.2.2.2⟩

/-- **C8.**  On an accept event where the local transport open/connect
fails, the accepted remote connection is closed and the proxy keeps
listening: the listen watch survives, no forwarding watches are created,
and the published record identifier is untouched. -/
theorem C8_theorem (prx : Proxy) (inp : ConnectEventIn)
    (h1 : inp.nval = false) (h2 : inp.errHup = false)
    (h3 : inp.acceptOk = true) (h4 : inp.localFd < 0) :
    connect_event prx inp = ⟨proxyWithDst prx inp.peer, true, true⟩
    ∧ (connect_event prx inp).prx.listen_watch = prx.listen_watch
    ∧ (connect_event prx inp).prx.rfcomm_watch = prx.rfcomm_watch
    ∧ (connect_event prx inp).prx.local_watch = prx.local_watch
    ∧ (connect_event prx inp).prx.record_id = prx.record_id := by
  have h : connect_event prx inp = ⟨proxyWithDst prx inp.peer, true, true⟩ := by
    simp [connect_event, h1, h2, h3, h4]
  refine ⟨h, ?_, ?_, ?_, ?_⟩ <;> rw [h] <;> rfl

/-- Witness for C8: a failed local connect (`localFd = -1`) on an enabled
proxy leaves it enabled and unconnected. -/
theorem C8_witness :
    connect_event (proxyWithWatches prx0 0 0) ⟨false, false, true, bda0, -1, 7, 8⟩
      = ⟨proxyWithDst (proxyWithWatches prx0 0 0) bda0, true, true⟩
    ∧ (connect_event (proxyWithWatches prx0 0 0)
        ⟨false, false, true, bda0, -1, 7, 8⟩).prx.record_id
      = (proxyWithWatches prx0 0 0).record_id :=
  ⟨(C8_theorem (proxyWithWatches prx0 0 0) ⟨false, false, true, bda0, -1, 7, 8⟩
      (by decide) (by decide) (by decide) (by decide)).1,
    (C8_theorem (proxyWithWatches prx0 0 0) ⟨false, false, true, bda0, -1, 7, 8⟩
      (by decide) (by decide) (by decide) (by decide)).2.2.2.2⟩

end Serial

